import Mathlib

/-!
Verification of the packaging script `src/setup.py` of the glfw-types
repository.  The script is embedded shallowly: a small statement language
covering the Python constructs the file could have used (assignments,
imports, `with open(...) as f:` blocks, function/class definitions, loops,
branches, and a `setup(...)` call), a deterministic interpreter over an
environment describing the file system, and the script itself as a concrete
program in that language.  The source text is also embedded line by line to
settle the line-count claims.
-/

/-- Python values occurring in the script: strings, lists and dicts. -/
inductive PyVal where
  | str (s : String)
  | list (xs : List PyVal)
  | dict (entries : List (String × PyVal))
deriving Repr

/-- Decidable equality for `PyVal` (structural recursion through the nested
lists). -/
def PyVal.beq : PyVal → PyVal → Bool
  | .str a, .str b => a == b
  | .list xs, .list ys =>
      let rec beqList : List PyVal → List PyVal → Bool
        | [], [] => true
        | x :: xs, y :: ys => PyVal.beq x y && beqList xs ys
        | _, _ => false
      beqList xs ys
  | .dict xs, .dict ys =>
      let rec beqDict : List (String × PyVal) → List (String × PyVal) → Bool
        | [], [] => true
        | (k, v) :: xs, (l, w) :: ys => k == l && PyVal.beq v w && beqDict xs ys
        | _, _ => false
      beqDict xs ys
  | _, _ => false

instance : BEq PyVal := ⟨PyVal.beq⟩

/-- Expressions used by the script: literals, variable references,
`f.read()`, `os.path.join`, `os.path.dirname`, `os.path.abspath` and the
`__file__` constant. -/
inductive PyExpr where
  | lit (v : PyVal)
  | var (x : String)
  | readOf (f : String)
  | joinPath (a b : PyExpr)
  | dirnameOf (e : PyExpr)
  | abspathOf (e : PyExpr)
  | fileVar
deriving Repr

/-- Statements: the straight-line forms the script uses, plus the definition,
loop and branch forms Python offers (the script is proved to use none of the
latter). -/
inductive PyStmt where
  | importMod (m : String)
  | fromImport (m : String) (names : List String)
  | assign (x : String) (e : PyExpr)
  | withOpenRead (path : PyExpr) (f : String) (body : List PyStmt)
  | callSetup (kwargs : List (String × PyExpr))
  | funcDef (name : String) (body : List PyStmt)
  | classDef (name : String) (body : List PyStmt)
  | whileLoop (cond : PyExpr) (body : List PyStmt)
  | forLoop (x : String) (iter : PyExpr) (body : List PyStmt)
  | ifStmt (cond : PyExpr) (thn els : List PyStmt)
deriving Repr

/-- Observable events of a run: reading a file, and the single call into
`setuptools.setup` with its evaluated keyword arguments. -/
inductive Event where
  | readFile (path : String)
  | callSetup (args : List (String × PyVal))
deriving Repr

instance : BEq Event where
  beq
    | .readFile p, .readFile q => p == q
    | .callSetup a, .callSetup b =>
        let rec beqArgs : List (String × PyVal) → List (String × PyVal) → Bool
          | [], [] => true
          | (k, v) :: xs, (l, w) :: ys => k == l && PyVal.beq v w && beqArgs xs ys
          | _, _ => false
        beqArgs a b
    | _, _ => false

/-- Errors a run of the script can raise: a missing file at `open`, an
unbound name, a type mismatch, or a construct outside the modelled
straight-line fragment. -/
inductive PyErr where
  | fileNotFound (path : String)
  | nameError (x : String)
  | typeError
  | unmodelledConstruct
deriving Repr, BEq, DecidableEq

/-- The interpreter state: variable bindings, open file handles (name to
contents), the events emitted so far, and the error that stopped the run,
if any. -/
structure St where
  vars : List (String × PyVal)
  handles : List (String × String)
  events : List Event
  error : Option PyErr

/-- The environment a run observes: the process working directory, the
script's own `__file__` path, and the readable files (absolute path to
contents). -/
structure Env where
  cwd : String
  filePath : String
  files : List (String × String)

/-- Whether a path is absolute: its first character is a slash. -/
def isAbsolute (p : String) : Bool :=
  match p.toList with
  | '/' :: _ => true
  | _ => false

/-- Whether a path's last character is a slash. -/
def endsInSlash (p : String) : Bool :=
  match p.toList.reverse with
  | '/' :: _ => true
  | _ => false

/-- `os.path.join` for two components, as the script uses it. -/
def pathJoin (a b : String) : String :=
  if isAbsolute b then b
  else if a = "" then b
  else if endsInSlash a then a ++ b
  else a ++ "/" ++ b

/-- `os.path.dirname`: everything before the last slash (empty when there
is no slash). -/
def pathDirname (p : String) : String :=
  match p.toList.reverse.dropWhile (fun c => c != '/') with
  | [] => ""
  | _ :: rest => String.mk rest.reverse

/-- `os.path.abspath` relative to a working directory (no normalisation,
which the script never needs). -/
def pathAbspath (cwd p : String) : String :=
  if isAbsolute p then p else pathJoin cwd p

/-- Python truthiness of the modelled values. -/
def truthy : PyVal → Bool
  | .str s => s ≠ ""
  | .list xs => !xs.isEmpty
  | .dict es => !es.isEmpty

/-- Expression evaluation. -/
def evalExpr (env : Env) (st : St) : PyExpr → Except PyErr PyVal
  | .lit v => .ok v
  | .var x =>
      match st.vars.lookup x with
      | some v => .ok v
      | none => .error (.nameError x)
  | .readOf f =>
      match st.handles.lookup f with
      | some contents => .ok (.str contents)
      | none => .error (.nameError f)
  | .joinPath a b => do
      match ← evalExpr env st a, ← evalExpr env st b with
      | .str sa, .str sb => .ok (.str (pathJoin sa sb))
      | _, _ => .error .typeError
  | .dirnameOf e => do
      match ← evalExpr env st e with
      | .str s => .ok (.str (pathDirname s))
      | _ => .error .typeError
  | .abspathOf e => do
      match ← evalExpr env st e with
      | .str s => .ok (.str (pathAbspath env.cwd s))
      | _ => .error .typeError
  | .fileVar => .ok (.str env.filePath)

/-- Left-to-right evaluation of the keyword arguments of a call. -/
def evalKwargs (env : Env) (st : St) : List (String × PyExpr) →
    Except PyErr (List (String × PyVal))
  | [] => .ok []
  | (k, e) :: rest => do
      let v ← evalExpr env st e
      let vs ← evalKwargs env st rest
      .ok ((k, v) :: vs)

mutual

/-- One step of the interpreter.  A state that already carries an error is
returned unchanged (the run has stopped).  Function and class definitions
and loops are outside the modelled fragment; the embedded script is proved
to contain none of them. -/
def execStmt (env : Env) (st : St) : PyStmt → St
  | .importMod _ => st
  | .fromImport _ _ => st
  | .assign x e =>
      if st.error.isSome then st else
      match evalExpr env st e with
      | .error er => { st with error := some er }
      | .ok v => { st with vars := (x, v) :: st.vars }
  | .withOpenRead pathE f body =>
      if st.error.isSome then st else
      match evalExpr env st pathE with
      | .error er => { st with error := some er }
      | .ok (.str p) =>
          match env.files.lookup p with
          | none => { st with error := some (.fileNotFound p) }
          | some contents =>
              let st1 := { st with
                handles := (f, contents) :: st.handles,
                events := st.events ++ [Event.readFile p] }
              let st2 := execStmts env st1 body
              { st2 with handles := st.handles }
      | .ok _ => { st with error := some .typeError }
  | .callSetup kwargs =>
      if st.error.isSome then st else
      match evalKwargs env st kwargs with
      | .error er => { st with error := some er }
      | .ok args => { st with events := st.events ++ [Event.callSetup args] }
  | .funcDef _ _ =>
      if st.error.isSome then st else { st with error := some .unmodelledConstruct }
  | .classDef _ _ =>
      if st.error.isSome then st else { st with error := some .unmodelledConstruct }
  | .whileLoop _ _ =>
      if st.error.isSome then st else { st with error := some .unmodelledConstruct }
  | .forLoop _ _ _ =>
      if st.error.isSome then st else { st with error := some .unmodelledConstruct }
  | .ifStmt c t e =>
      if st.error.isSome then st else
      match evalExpr env st c with
      | .error er => { st with error := some er }
      | .ok v => if truthy v then execStmts env st t else execStmts env st e

/-- Sequential execution of a statement list. -/
def execStmts (env : Env) (st : St) : List PyStmt → St
  | [] => st
  | s :: rest => execStmts env (execStmt env st s) rest

end

/-- The initial state of a run: no bindings, no handles, no events, no
error. -/
def initSt : St := ⟨[], [], [], none⟩

/-- The classifiers list of the `setup()` call, as written in the source. -/
def glfwtClassifiers : List String := [
  "Development Status :: 5 - Production/Stable",
  "Environment :: MacOS X",
  "Environment :: X11 Applications",
  "Intended Audience :: Developers",
  "License :: OSI Approved :: MIT License",
  "Programming Language :: Python :: 2",
  "Programming Language :: Python :: 3",
  "Topic :: Multimedia :: Graphics",
  "Topic :: Scientific/Engineering :: Visualization"
]

/-- The `package_data` file list of the single package `glfwt`, as written
in the source. -/
def glfwtDataFiles : List String := [
  "__init__.pyi",
  "glfw3.dll",
  "libglfw.3.dylib",
  "wayland/libglfw.so",
  "x11/libglfw.so",
  "libglfw.so",
  "msvcr100.dll",
  "msvcr110.dll"
]

/-- The embedded `src/setup.py`: its statements, in source order. -/
def setupPyStmts : List PyStmt := [
  .fromImport "setuptools" ["setup"],
  .importMod "os.path",
  .assign "setup_directory" (.abspathOf (.dirnameOf .fileVar)),
  .withOpenRead (.joinPath (.var "setup_directory") (.lit (.str "README.rst")))
    "readme_file" [
      .assign "long_description" (.readOf "readme_file")
    ],
  .callSetup [
    ("name", .lit (.str "glfwt")),
    ("version", .lit (.str "2.6.1")),
    ("description", .lit (.str "A ctypes-based wrapper for GLFW3 (with typing).")),
    ("long_description", .var "long_description"),
    ("url", .lit (.str "https://github.com/romanin-rf/glfwt")),
    ("author", .lit (.str "Florian Rhiem")),
    ("author_email", .lit (.str "florian.rhiem@gmail.com")),
    ("license", .lit (.str "MIT")),
    ("classifiers", .lit (.list (glfwtClassifiers.map .str))),
    ("packages", .lit (.list [.str "glfwt"])),
    ("package_data", .lit (.dict [("glfwt", .list (glfwtDataFiles.map .str))]))
  ]
]

/-- A full run of the script in an environment. -/
def run (env : Env) : St := execStmts env initSt setupPyStmts

/-- The absolute path at which the script opens its README: `README.rst`
in the script's own directory. -/
def readmePath (env : Env) : String :=
  pathJoin (pathAbspath env.cwd (pathDirname env.filePath)) "README.rst"

/-- The README contents the environment offers the script, if any. -/
def readmeContents (env : Env) : Option String :=
  env.files.lookup (readmePath env)

/-- The evaluated keyword arguments that precede `long_description` in the
`setup()` call: literal constants. -/
def glfwtArgsBeforeLd : List (String × PyVal) := [
  ("name", .str "glfwt"),
  ("version", .str "2.6.1"),
  ("description", .str "A ctypes-based wrapper for GLFW3 (with typing).")
]

/-- The evaluated keyword arguments that follow `long_description` in the
`setup()` call: literal constants. -/
def glfwtArgsAfterLd : List (String × PyVal) := [
  ("url", .str "https://github.com/romanin-rf/glfwt"),
  ("author", .str "Florian Rhiem"),
  ("author_email", .str "florian.rhiem@gmail.com"),
  ("license", .str "MIT"),
  ("classifiers", .list (glfwtClassifiers.map .str)),
  ("packages", .list [.str "glfwt"]),
  ("package_data", .dict [("glfwt", .list (glfwtDataFiles.map .str))])
]

/-- The full evaluated argument list of the `setup()` call when the README
read yields `ld`: every argument is a literal constant except
`long_description`. -/
def glfwtArgs (ld : String) : List (String × PyVal) :=
  glfwtArgsBeforeLd ++ ("long_description", PyVal.str ld) :: glfwtArgsAfterLd

/-- The argument lists of the `setup()` calls among a run's events. -/
def setupCallsIn (events : List Event) : List (List (String × PyVal)) :=
  events.filterMap fun e =>
    match e with
    | .callSetup a => some a
    | _ => none

/-- The arguments of the first `setup()` call a run performs, if any. -/
def setupArgsSent (env : Env) : Option (List (String × PyVal)) :=
  (setupCallsIn (run env).events).head?

/-- Whether a run reaches a `setup()` call at all. -/
def calledSetup (env : Env) : Bool :=
  !(setupCallsIn (run env).events).isEmpty

mutual

/-- How many statements of `s` (itself and, recursively, its nested blocks)
satisfy `p`. -/
def stmtCount (p : PyStmt → Bool) (s : PyStmt) : Nat :=
  (if p s then 1 else 0) +
  match s with
  | .withOpenRead _ _ body => stmtsCount p body
  | .funcDef _ body => stmtsCount p body
  | .classDef _ body => stmtsCount p body
  | .whileLoop _ body => stmtsCount p body
  | .forLoop _ _ body => stmtsCount p body
  | .ifStmt _ thn els => stmtsCount p thn + stmtsCount p els
  | _ => 0

/-- `stmtCount` summed over a statement list. -/
def stmtsCount (p : PyStmt → Bool) : List PyStmt → Nat
  | [] => 0
  | s :: rest => stmtCount p s + stmtsCount p rest

end

/-- Function or class definitions. -/
def isDefStmt : PyStmt → Bool
  | .funcDef _ _ => true
  | .classDef _ _ => true
  | _ => false

/-- Loops (`while` or `for`). -/
def isLoopStmt : PyStmt → Bool
  | .whileLoop _ _ => true
  | .forLoop _ _ _ => true
  | _ => false

/-- Branches (`if` statements). -/
def isBranchStmt : PyStmt → Bool
  | .ifStmt _ _ _ => true
  | _ => false

/-- Calls to `setup()` — each one is a packaging descriptor. -/
def isSetupCall : PyStmt → Bool
  | .callSetup _ => true
  | _ => false

/-- File reads (`with open(...)` blocks). -/
def isFileRead : PyStmt → Bool
  | .withOpenRead _ _ _ => true
  | _ => false

/-- The keyword names of every `setup()` call in a statement list, in
source order. -/
def setupKwargNames (stmts : List PyStmt) : List String :=
  stmts.flatMap fun s =>
    match s with
    | .callSetup kwargs => kwargs.map Prod.fst
    | _ => []

/-- Keyword names by which setuptools declares required Python package
dependencies. -/
def dependencyFieldNames : List String :=
  ["install_requires", "requires", "setup_requires", "tests_require",
   "extras_require", "python_requires"]

/-- The text of `src/setup.py`, line by line. -/
def setupPySourceLines : List String := [
  "from setuptools import setup",
  "import os.path",
  "",
  "setup_directory = os.path.abspath(os.path.dirname(__file__))",
  "",
  "with open(os.path.join(setup_directory, 'README.rst')) as readme_file:",
  "    long_description = readme_file.read()",
  "",
  "setup(",
  "    name='glfwt',",
  "    version='2.6.1',",
  "    description='A ctypes-based wrapper for GLFW3 (with typing).',",
  "    long_description=long_description,",
  "    url='https://github.com/romanin-rf/glfwt',",
  "    author='Florian Rhiem',",
  "    author_email='florian.rhiem@gmail.com',",
  "    license='MIT',",
  "    classifiers=[",
  "        'Development Status :: 5 - Production/Stable',",
  "        'Environment :: MacOS X',",
  "        'Environment :: X11 Applications',",
  "        'Intended Audience :: Developers',",
  "        'License :: OSI Approved :: MIT License',",
  "        'Programming Language :: Python :: 2',",
  "        'Programming Language :: Python :: 3',",
  "        'Topic :: Multimedia :: Graphics',",
  "        'Topic :: Scientific/Engineering :: Visualization',",
  "    ],",
  "    packages=['glfwt'],",
  "    package_data=\x7b",
  "        'glfwt': [",
  "            '__init__.pyi',",
  "            'glfw3.dll',",
  "            'libglfw.3.dylib',",
  "            'wayland/libglfw.so',",
  "            'x11/libglfw.so',",
  "            'libglfw.so',",
  "            'msvcr100.dll',",
  "            'msvcr110.dll',",
  "        ]",
  "    \x7d",
  ")"
]

/-- Characterisation of a run when the README is present: the script binds
its two variables, reads the README once, and calls `setup()` once with the
evaluated arguments; no error is raised. -/
theorem run_eq_of_readme (env : Env) (c : String)
    (h : readmeContents env = some c) :
    run env =
      { vars := [("long_description", PyVal.str c),
                 ("setup_directory",
                  PyVal.str (pathAbspath env.cwd (pathDirname env.filePath)))],
        handles := [],
        events := [Event.readFile (readmePath env), Event.callSetup (glfwtArgs c)],
        error := none } := by
  have h' : env.files.lookup
      (pathJoin (pathAbspath env.cwd (pathDirname env.filePath)) "README.rst")
      = some c := h
  simp only [run, setupPyStmts, execStmts, execStmt, initSt, evalExpr, evalKwargs,
    bind, Except.bind, List.lookup, readmePath]
  simp [h', glfwtArgs, glfwtArgsBeforeLd, glfwtArgsAfterLd]

/-- Characterisation of a run when the README is absent: the `open` call
raises file-not-found, nothing is read, and `setup()` is never reached. -/
theorem run_eq_of_noreadme (env : Env)
    (h : readmeContents env = none) :
    run env =
      { vars := [("setup_directory",
                  PyVal.str (pathAbspath env.cwd (pathDirname env.filePath)))],
        handles := [],
        events := [],
        error := some (PyErr.fileNotFound (readmePath env)) } := by
  have h' : env.files.lookup
      (pathJoin (pathAbspath env.cwd (pathDirname env.filePath)) "README.rst")
      = none := h
  simp only [run, setupPyStmts, execStmts, execStmt, initSt, evalExpr, evalKwargs,
    bind, Except.bind, List.lookup, readmePath]
  simp [h']

/-- When the README is present the single `setup()` call receives exactly
the evaluated argument list. -/
theorem setupArgsSent_of_readme (env : Env) (c : String)
    (h : readmeContents env = some c) :
    setupArgsSent env = some (glfwtArgs c) := by
  rw [setupArgsSent, run_eq_of_readme env c h]
  rfl

/-- A sample environment in which the README exists with contents
`"hello"`. -/
def envEx : Env := ⟨"/w", "/repo/setup.py", [("/repo/README.rst", "hello")]⟩

/-- A second sample environment, elsewhere on disk, whose README has the
same contents `"hello"`. -/
def envEx2 : Env := ⟨"/other", "/elsewhere/setup.py", [("/elsewhere/README.rst", "hello")]⟩

/-- A sample environment with no README file at all. -/
def envNoReadme : Env := ⟨"/w", "/repo/setup.py", []⟩

/-- C1: the script is purely declarative straight-line code: it contains no
function or class definitions, no loops and no branches, exactly one file
read and exactly one `setup()` call; and on every environment offering the
README its whole observable behaviour is one read of `README.rst` followed
by one `setup()` call whose arguments are constants apart from the
README-derived `long_description`, with no error. -/
theorem C1_straight_line_declarative :
    stmtsCount isDefStmt setupPyStmts = 0 ∧
    stmtsCount isLoopStmt setupPyStmts = 0 ∧
    stmtsCount isBranchStmt setupPyStmts = 0 ∧
    stmtsCount isFileRead setupPyStmts = 1 ∧
    stmtsCount isSetupCall setupPyStmts = 1 ∧
    ∀ env c, readmeContents env = some c →
      (run env).events
        = [Event.readFile (readmePath env), Event.callSetup (glfwtArgs c)] ∧
      (run env).error = none := by
  refine ⟨rfl, rfl, rfl, rfl, rfl, fun env c h => ?_⟩
  rw [run_eq_of_readme env c h]
  exact ⟨rfl, rfl⟩

/-- Witness for C1 in the sample environment whose README holds
`"hello"`. -/
theorem C1_straight_line_declarative_witness :
    (run envEx).events
      = [Event.readFile (readmePath envEx), Event.callSetup (glfwtArgs "hello")] ∧
    (run envEx).error = none :=
  C1_straight_line_declarative.2.2.2.2.2 envEx "hello" rfl

/-- C2: the `package_data` manifest of the single package `glfwt` covers
every platform the spec names: the Windows DLLs `glfw3.dll`,
`msvcr100.dll` and `msvcr110.dll`, the macOS `libglfw.3.dylib`, and the
Linux shared objects including the Wayland and X11 variants. -/
theorem C2_platform_manifest (env : Env) (c : String)
    (h : readmeContents env = some c) :
    ∃ args, setupArgsSent env = some args ∧
      args.lookup "package_data"
        = some (PyVal.dict [("glfwt", PyVal.list (glfwtDataFiles.map PyVal.str))]) ∧
      "glfw3.dll" ∈ glfwtDataFiles ∧
      "msvcr100.dll" ∈ glfwtDataFiles ∧
      "msvcr110.dll" ∈ glfwtDataFiles ∧
      "libglfw.3.dylib" ∈ glfwtDataFiles ∧
      "wayland/libglfw.so" ∈ glfwtDataFiles ∧
      "x11/libglfw.so" ∈ glfwtDataFiles ∧
      "libglfw.so" ∈ glfwtDataFiles :=
  ⟨glfwtArgs c, setupArgsSent_of_readme env c h, rfl, by decide, by decide,
   by decide, by decide, by decide, by decide, by decide⟩

/-- Witness for C2 in the sample environment. -/
theorem C2_platform_manifest_witness :
    ∃ args, setupArgsSent envEx = some args ∧
      args.lookup "package_data"
        = some (PyVal.dict [("glfwt", PyVal.list (glfwtDataFiles.map PyVal.str))]) ∧
      "glfw3.dll" ∈ glfwtDataFiles ∧
      "msvcr100.dll" ∈ glfwtDataFiles ∧
      "msvcr110.dll" ∈ glfwtDataFiles ∧
      "libglfw.3.dylib" ∈ glfwtDataFiles ∧
      "wayland/libglfw.so" ∈ glfwtDataFiles ∧
      "x11/libglfw.so" ∈ glfwtDataFiles ∧
      "libglfw.so" ∈ glfwtDataFiles :=
  C2_platform_manifest envEx "hello" rfl

/-- C3 counterexample: no keyword argument of the script's `setup()` call
is a dependency-declaring field (`install_requires` or any of its
relatives), so the descriptor declares no dependency list. -/
theorem C3_counterexample :
    ¬ ∃ n, n ∈ setupKwargNames setupPyStmts ∧ n ∈ dependencyFieldNames := by
  decide

/-- C3 as amended: the `setup()` arguments declare the package name,
version, author, license and bundled data files, but contain no dependency
list: none of the setuptools dependency fields appears among the keyword
names. -/
theorem C3_fields_without_dependency_list :
    setupKwargNames setupPyStmts
      = ["name", "version", "description", "long_description", "url", "author",
         "author_email", "license", "classifiers", "packages", "package_data"] ∧
    "name" ∈ setupKwargNames setupPyStmts ∧
    "version" ∈ setupKwargNames setupPyStmts ∧
    "author" ∈ setupKwargNames setupPyStmts ∧
    "license" ∈ setupKwargNames setupPyStmts ∧
    "package_data" ∈ setupKwargNames setupPyStmts ∧
    (setupKwargNames setupPyStmts).all
      (fun n => !(dependencyFieldNames.contains n)) = true := by
  decide

/-- C4 counterexample: in an environment with no `README.rst` the script's
own `open` statement raises file-not-found, so an operation authored in
this repository can raise an error. -/
theorem C4_counterexample :
    (run envNoReadme).error = some (PyErr.fileNotFound "/repo/README.rst") ∧
    ¬ (run envNoReadme).error = none := by
  exact ⟨rfl, by decide⟩

/-- C4 as amended: the only failure the script itself can raise is the
README read: when `README.rst` is readable the run raises no error at all,
and in every environment the run's error is either absent or the
file-not-found raised by the `open` of the README. -/
theorem C4_failures_only_at_readme_read (env : Env) :
    ((∃ c, readmeContents env = some c) → (run env).error = none) ∧
    ((run env).error = none ∨
      (run env).error = some (PyErr.fileNotFound (readmePath env))) := by
  cases h : readmeContents env with
  | none =>
      refine ⟨?_, ?_⟩
      · rintro ⟨c, hc⟩
        cases hc
      · right
        rw [run_eq_of_noreadme env h]
  | some c =>
      refine ⟨fun _ => ?_, ?_⟩
      · rw [run_eq_of_readme env c h]
      · left
        rw [run_eq_of_readme env c h]

/-- Witness for C4 as amended: in the sample environment the run raises no
error. -/
theorem C4_failures_only_at_readme_read_witness :
    (run envEx).error = none :=
  (C4_failures_only_at_readme_read envEx).1 ⟨"hello", rfl⟩

/-- C5: the run reaches the `setup()` call if and only if `README.rst`
exists (readably) in the script's own directory; when it is absent the run
stops with an unhandled file-not-found error and performs no packaging
action at all. -/
theorem C5_setup_reached_iff_readme (env : Env) :
    (calledSetup env = true ↔ ∃ c, readmeContents env = some c) ∧
    (readmeContents env = none →
      (run env).error = some (PyErr.fileNotFound (readmePath env)) ∧
      (run env).events = []) := by
  cases h : readmeContents env with
  | none =>
      refine ⟨⟨fun hc => ?_, ?_⟩, fun _ => ?_⟩
      · rw [calledSetup, run_eq_of_noreadme env h] at hc
        cases hc
      · rintro ⟨c, hc⟩
        cases hc
      · rw [run_eq_of_noreadme env h]
        exact ⟨rfl, rfl⟩
  | some c =>
      refine ⟨⟨fun _ => ⟨c, rfl⟩, fun _ => ?_⟩, fun hn => ?_⟩
      · rw [calledSetup, run_eq_of_readme env c h]
        rfl
      · cases hn

/-- Witness for C5: the sample environment with a README reaches
`setup()`, and the sample environment without one stops with
file-not-found having performed nothing. -/
theorem C5_setup_reached_iff_readme_witness :
    calledSetup envEx = true ∧
    (run envNoReadme).error = some (PyErr.fileNotFound (readmePath envNoReadme)) ∧
    (run envNoReadme).events = [] :=
  ⟨(C5_setup_reached_iff_readme envEx).1.mpr ⟨"hello", rfl⟩,
   (C5_setup_reached_iff_readme envNoReadme).2 rfl⟩

/-- C6: the script is deterministic in its input: the `long_description`
argument of `setup()` is exactly the README contents with no
transformation, every other argument is the same literal constant in every
run, and two runs observing the same README contents send identical
argument lists to `setup()`. -/
theorem C6_deterministic_and_faithful (env₁ env₂ : Env) (c₁ c₂ : String)
    (h₁ : readmeContents env₁ = some c₁) (h₂ : readmeContents env₂ = some c₂) :
    setupArgsSent env₁
      = some (glfwtArgsBeforeLd
              ++ ("long_description", PyVal.str c₁) :: glfwtArgsAfterLd) ∧
    (c₁ = c₂ → setupArgsSent env₁ = setupArgsSent env₂) := by
  refine ⟨setupArgsSent_of_readme env₁ c₁ h₁, fun hc => ?_⟩
  rw [setupArgsSent_of_readme env₁ c₁ h₁, setupArgsSent_of_readme env₂ c₂ h₂, hc]

/-- Witness for C6: two different sample environments with the same README
contents send identical arguments. -/
theorem C6_deterministic_and_faithful_witness :
    setupArgsSent envEx
      = some (glfwtArgsBeforeLd
              ++ ("long_description", PyVal.str "hello") :: glfwtArgsAfterLd) ∧
    (("hello" : String) = "hello" → setupArgsSent envEx = setupArgsSent envEx2) :=
  C6_deterministic_and_faithful envEx envEx2 "hello" "hello" rfl rfl

/-- C7: the identity metadata is internally consistent: the arguments sent
to `setup()` declare name `glfwt`, version `2.6.1` and license `MIT`, and
the classifiers list sent with them contains the trove classifier
`License :: OSI Approved :: MIT License`. -/
theorem C7_identity_metadata_consistent (env : Env) (c : String)
    (h : readmeContents env = some c) :
    ∃ args, setupArgsSent env = some args ∧
      args.lookup "name" = some (PyVal.str "glfwt") ∧
      args.lookup "version" = some (PyVal.str "2.6.1") ∧
      args.lookup "license" = some (PyVal.str "MIT") ∧
      args.lookup "classifiers"
        = some (PyVal.list (glfwtClassifiers.map PyVal.str)) ∧
      "License :: OSI Approved :: MIT License" ∈ glfwtClassifiers :=
  ⟨glfwtArgs c, setupArgsSent_of_readme env c h, rfl, rfl, rfl, rfl, by decide⟩

/-- Witness for C7 in the sample environment. -/
theorem C7_identity_metadata_consistent_witness :
    ∃ args, setupArgsSent envEx = some args ∧
      args.lookup "name" = some (PyVal.str "glfwt") ∧
      args.lookup "version" = some (PyVal.str "2.6.1") ∧
      args.lookup "license" = some (PyVal.str "MIT") ∧
      args.lookup "classifiers"
        = some (PyVal.list (glfwtClassifiers.map PyVal.str)) ∧
      "License :: OSI Approved :: MIT License" ∈ glfwtClassifiers :=
  C7_identity_metadata_consistent envEx "hello" rfl

/-- C8 counterexample: the supplied `src/setup.py` does not comprise 61
lines. -/
theorem C8_counterexample : ¬ setupPySourceLines.length = 61 := by decide

/-- C8 as amended: the supplied packaging metadata comprises exactly 42
lines. -/
theorem C8_line_count : setupPySourceLines.length = 42 := by decide

/-- C9 counterexample: the supplied source does not contain two `setup()`
descriptors. -/
theorem C9_counterexample : ¬ stmtsCount isSetupCall setupPyStmts = 2 := by
  decide

/-- C9 as amended: the supplied repository content contains exactly one
packaging descriptor: a single `setup()` call. -/
theorem C9_single_descriptor : stmtsCount isSetupCall setupPyStmts = 1 := rfl

/-- C10: the `package_data` manifest of `glfwt` has exactly eight entries,
exactly one of which is the typing artifact `__init__.pyi`, matching the
descriptor's own description of the wrapper as shipping with typing, and
`glfwt` is the only package declared. -/
theorem C10_package_data_shape (env : Env) (c : String)
    (h : readmeContents env = some c) :
    ∃ args, setupArgsSent env = some args ∧
      args.lookup "packages" = some (PyVal.list [PyVal.str "glfwt"]) ∧
      args.lookup "package_data"
        = some (PyVal.dict [("glfwt", PyVal.list (glfwtDataFiles.map PyVal.str))]) ∧
      args.lookup "description"
        = some (PyVal.str "A ctypes-based wrapper for GLFW3 (with typing).") ∧
      glfwtDataFiles.length = 8 ∧
      glfwtDataFiles.count "__init__.pyi" = 1 :=
  ⟨glfwtArgs c, setupArgsSent_of_readme env c h, rfl, rfl, rfl, by decide,
   by decide⟩

/-- Witness for C10 in the sample environment. -/
theorem C10_package_data_shape_witness :
    ∃ args, setupArgsSent envEx = some args ∧
      args.lookup "packages" = some (PyVal.list [PyVal.str "glfwt"]) ∧
      args.lookup "package_data"
        = some (PyVal.dict [("glfwt", PyVal.list (glfwtDataFiles.map PyVal.str))]) ∧
      args.lookup "description"
        = some (PyVal.str "A ctypes-based wrapper for GLFW3 (with typing).") ∧
      glfwtDataFiles.length = 8 ∧
      glfwtDataFiles.count "__init__.pyi" = 1 :=
  C10_package_data_shape envEx "hello" rfl
